import Mathlib

/-!
Shallow embedding of the SolarSys animation core
(src/frontend/src/components/PlanetarySystem.jsx and the mock data module
imported by src/frontend/src/App.js).

Numeric configuration values (orbit radii, speeds, base positions) are decimal
literals in the source; they are embedded as exact rationals.  Simulation time
and mesh coordinates are real numbers; Math.cos and Math.sin become Real.cos
and Real.sin.  A field access that in JavaScript would read an absent numeric
field (yielding NaN coordinates) or dereference a missing registry entry
(throwing) is modelled by Option, with none standing for the absence of a
meaningful position.
-/

/-- A 3D coordinate with real components (a three.js Vector3). -/
@[ext]
structure Vec3 where
  x : ℝ
  y : ℝ
  z : ℝ

instance : Inhabited Vec3 := ⟨⟨0, 0, 0⟩⟩

/-- A 3D coordinate with rational components, used for the static
configuration values of the body registry. -/
structure QVec3 where
  x : ℚ
  y : ℚ
  z : ℚ
deriving DecidableEq

/-- Cast a configuration coordinate to a scene coordinate. -/
noncomputable def QVec3.toVec3 (v : QVec3) : Vec3 := ⟨(v.x : ℝ), (v.y : ℝ), (v.z : ℝ)⟩

/-- One celestial body record of the registry (the `planetaryData` mock
module).  Descriptive metadata (description text, facts, texture URL) is
consumed only by the info panel and carries no kinematic content, so it is
omitted.  `position` is the basePosition array, `radius` the visual radius. -/
structure Body where
  id : String
  name : String
  radius : ℚ
  color : String
  position : QVec3
  rotationSpeed : ℚ
  orbitRadius : Option ℚ
  orbitSpeed : Option ℚ
  parent : Option String
  emissive : Bool
deriving DecidableEq

/-- JavaScript truthiness of an optional numeric field: present and nonzero.
(`data.orbitRadius && ...` at PlanetarySystem.jsx line 16.) -/
def truthyOpt (o : Option ℚ) : Bool :=
  match o with
  | none => false
  | some r => r != 0

/-- JavaScript truthiness of an optional string field: present and nonempty.
(`!data.parent` at line 16, `data.parent` at line 20.) -/
def truthyStr (o : Option String) : Bool :=
  match o with
  | none => false
  | some s => s != ""

/-- Look up the registry entry stored under the key "earth"
(the hardcoded `planetaryData.earth` access at lines 22 and 23). -/
def findEarth (reg : List Body) : Option Body :=
  reg.find? (fun p => p.id == "earth")

/-- The new mesh position written by one tick of the Planet useFrame callback
(PlanetarySystem.jsx lines 16 to 29), given the current simulation time and
the previous mesh position `prev`.  Only the x and z coordinates are ever
assigned; the y coordinate is whatever the mesh already had.  The child
branch reads the orbital parameters of the registry entry "earth", not of the
body named by `parent`.  `none` models a NaN producing access to an absent
numeric field, or the exception thrown when the "earth" entry is missing. -/
noncomputable def framePosition (reg : List Body) (b : Body) (t : ℝ) (prev : Vec3) :
    Option Vec3 :=
  if truthyOpt b.orbitRadius && !truthyStr b.parent then
    match b.orbitRadius, b.orbitSpeed with
    | some r, some s =>
        some ⟨Real.cos (t * (s : ℝ)) * (r : ℝ), prev.y, Real.sin (t * (s : ℝ)) * (r : ℝ)⟩
    | _, _ => none
  else if truthyStr b.parent then
    match findEarth reg with
    | some e =>
        match e.orbitSpeed, e.orbitRadius, b.orbitSpeed, b.orbitRadius with
        | some es, some er, some s, some r =>
            some ⟨Real.cos (t * (es : ℝ)) * (er : ℝ) + Real.cos (t * (s : ℝ)) * (r : ℝ),
                  prev.y,
                  Real.sin (t * (es : ℝ)) * (er : ℝ) + Real.sin (t * (s : ℝ)) * (r : ℝ)⟩
        | _, _, _, _ => none
    | none => none
  else
    some prev

/-- The mutable visual state of one Planet mesh: its position and its
accumulated spin angle about the vertical axis (`rotation.y`). -/
structure Mesh where
  position : Vec3
  rotY : ℝ

/-- One tick of the Planet useFrame callback (lines 12 to 31): the spin angle
grows by `rotationSpeed`, and the position is rewritten from the orbit
formula when one applies (a `none` result leaves the mesh where it was). -/
noncomputable def planetFrame (reg : List Body) (b : Body) (t : ℝ) (m : Mesh) : Mesh :=
  { position := (framePosition reg b t m.position).getD m.position
    rotY := m.rotY + (b.rotationSpeed : ℝ) }

/-- The initial mesh of a body: placed at `basePosition` with spin angle 0
(the `position={data.position}` attribute at line 37). -/
noncomputable def initialMesh (b : Body) : Mesh := ⟨b.position.toVec3, 0⟩

/-- The resolved position of a body at simulation time `t`, starting from its
base placement: the mesh position after the frame update runs at time `t`. -/
noncomputable def resolvedPositionAt (reg : List Body) (b : Body) (t : ℝ) : Option Vec3 :=
  framePosition reg b t b.position.toVec3

/-- Initial value of the simulation clock (`useState(0)` at line 94). -/
def initialTime : ℝ := 0

/-- One advance of the simulation clock
(`setTime(prev => prev + settings.timeSpeed * 0.01)` at line 97). -/
noncomputable def advanceTime (t speed : ℝ) : ℝ := t + speed * 0.01

/-- The display settings record (the `simulationSettings` mock module). -/
structure Settings where
  timeSpeed : ℝ
  showOrbits : Bool
  showLabels : Bool
  cameraDistance : ℝ
  ambientLightIntensity : ℝ
  pointLightIntensity : ℝ

/-- A value passed to the settings updater: the UI sends numbers and
booleans. -/
inductive SettingValue where
  | num (v : ℝ)
  | flag (b : Bool)

/-- The `handleSettingChange(key, value)` callback (lines 143 to 148): a
spread merge of one dynamically keyed field into the settings object,
modelled as a closed per-field update (an unknown key leaves the record
unchanged; the component only ever sends the keys below). -/
def updateSetting (s : Settings) (key : String) (v : SettingValue) : Settings :=
  match key, v with
  | "timeSpeed", SettingValue.num x => { s with timeSpeed := x }
  | "cameraDistance", SettingValue.num x => { s with cameraDistance := x }
  | "ambientLightIntensity", SettingValue.num x => { s with ambientLightIntensity := x }
  | "pointLightIntensity", SettingValue.num x => { s with pointLightIntensity := x }
  | "showOrbits", SettingValue.flag b => { s with showOrbits := b }
  | "showLabels", SettingValue.flag b => { s with showLabels := b }
  | _, _ => s

/-- One whole rendered frame as seen by one body: the clock advances by
`timeSpeed * 0.01`, then the Planet callback runs at the advanced time. -/
noncomputable def bodyFrame (reg : List Body) (settings : Settings) (b : Body) :
    ℝ × Mesh → ℝ × Mesh :=
  fun tm =>
    let t := advanceTime tm.1 settings.timeSpeed
    (t, planetFrame reg b t tm.2)

/-- The i-th sample point of an orbit guide of the given radius
(OrbitPath, lines 77 to 81): angle `(i / 64) * PI * 2`, on the horizontal
plane, centered at the scene origin. -/
noncomputable def orbitPoint (radius : ℚ) (i : ℕ) : Vec3 :=
  ⟨Real.cos (((i : ℝ) / 64) * Real.pi * 2) * (radius : ℝ), 0,
   Real.sin (((i : ℝ) / 64) * Real.pi * 2) * (radius : ℝ)⟩

/-- The full point list of one orbit guide: i = 0, ..., 64, hence 65 points
and 64 segments, first point repeated at the end (closed polyline). -/
noncomputable def orbitPathPoints (radius : ℚ) : List Vec3 :=
  (List.range 65).map (orbitPoint radius)

/-- The radii of the orbit guides actually emitted by one composition pass of
SolarSystemScene (lines 107 to 119), in document order: one guide per body
with truthy `orbitRadius` and falsy `parent` (rendered only when
`showOrbits`), followed by one unconditional extra guide of the orbitRadius
of the registry entry "moon" whenever `showOrbits` is set.  An OrbitPath with
`visible` false renders null, hence emits nothing. -/
def sceneOrbitGuideRadii (reg : List Body) (showOrbits : Bool) : List ℚ :=
  (reg.filterMap (fun p =>
    match p.orbitRadius with
    | some r => if r != 0 && !truthyStr p.parent && showOrbits then some r else none
    | none => none)) ++
  (if showOrbits then
    match reg.find? (fun b => b.id == "moon") with
    | some m =>
        match m.orbitRadius with
        | some r => [r]
        | none => []
    | none => []
  else [])

/-- The orbit guides emitted by one composition pass, as point lists. -/
noncomputable def sceneOrbitGuides (reg : List Body) (showOrbits : Bool) : List (List Vec3) :=
  (sceneOrbitGuideRadii reg showOrbits).map orbitPathPoints

/-- The body instances emitted by one composition pass (lines 122 to 130):
one Planet per registry entry, unconditionally, with no validation of any
kind between startup and rendering. -/
def scenePlanetInstances (reg : List Body) : List Body := reg

/-- Euclidean distance of a scene point from the global origin. -/
noncomputable def Vec3.distOrigin (v : Vec3) : ℝ :=
  Real.sqrt (v.x ^ 2 + v.y ^ 2 + v.z ^ 2)

/-- Midpoint of two scene points.  For a closed circular guide, the midpoint
of the two diametrically opposite sample points 0 and 32 is the circle
center. -/
noncomputable def vecMidpoint (p q : Vec3) : Vec3 :=
  ⟨(p.x + q.x) / 2, (p.y + q.y) / 2, (p.z + q.z) / 2⟩

/-- The center of an emitted guide polyline, read off from its sample points
0 and 32 (which sit at angles 0 and PI, hence diametrically opposite). -/
noncomputable def guideCenter (g : List Vec3) : Vec3 :=
  vecMidpoint (g.getD 0 default) (g.getD 32 default)

/-! The shipped registry (`planetaryData` in the mock data module), in object
insertion order.  Decimal literals appear as exact rationals. -/

def sunB : Body :=
  { id := "sun", name := "Sun", radius := 5, color := "#FDB813"
    position := ⟨0, 0, 0⟩, rotationSpeed := 1/1000
    orbitRadius := none, orbitSpeed := none, parent := none, emissive := true }

def mercuryB : Body :=
  { id := "mercury", name := "Mercury", radius := 4/5, color := "#8C7853"
    position := ⟨15, 0, 0⟩, rotationSpeed := 1/200
    orbitRadius := some 15, orbitSpeed := some (1/50), parent := none, emissive := false }

def venusB : Body :=
  { id := "venus", name := "Venus", radius := 6/5, color := "#FFC649"
    position := ⟨22, 0, 0⟩, rotationSpeed := -(1/500)
    orbitRadius := some 22, orbitSpeed := some (3/200), parent := none, emissive := false }

def earthB : Body :=
  { id := "earth", name := "Earth", radius := 13/10, color := "#6B93D6"
    position := ⟨30, 0, 0⟩, rotationSpeed := 1/100
    orbitRadius := some 30, orbitSpeed := some (1/100), parent := none, emissive := false }

def moonB : Body :=
  { id := "moon", name := "Moon", radius := 7/20, color := "#D3D3D3"
    position := ⟨34, 0, 0⟩, rotationSpeed := 1/20
    orbitRadius := some 4, orbitSpeed := some (1/20), parent := some "earth", emissive := false }

/-- `Object.values(planetaryData)` in insertion order. -/
def planetaryDataL : List Body := [sunB, mercuryB, venusB, earthB, moonB]

/-- The shipped `simulationSettings` defaults. -/
noncomputable def simulationSettings : Settings :=
  { timeSpeed := 1, showOrbits := true, showLabels := true
    cameraDistance := 80, ambientLightIntensity := 0.2, pointLightIntensity := 1.5 }
/-- A hypothetical extra root body used to probe the parent lookup: a body
named "mars" with orbital parameters different from those of earth. -/
def marsB : Body :=
  { id := "mars", name := "Mars", radius := 1, color := "#AA4444"
    position := ⟨50, 0, 0⟩, rotationSpeed := 1/100
    orbitRadius := some 50, orbitSpeed := some (1/50), parent := none, emissive := false }

/-- A hypothetical child body whose `parent` names "mars", not "earth". -/
def phobosB : Body :=
  { id := "phobos", name := "Phobos", radius := 1/5, color := "#888888"
    position := ⟨54, 0, 0⟩, rotationSpeed := 1/100
    orbitRadius := some 4, orbitSpeed := some (1/20), parent := some "mars", emissive := false }

/-- A registry containing earth, mars and a child of mars. -/
def marsRegistry : List Body := [earthB, marsB, phobosB]

/-- A body whose `parent` references a registry key that does not exist. -/
def phantomB : Body :=
  { id := "phantom", name := "Phantom", radius := 1/2, color := "#123456"
    position := ⟨10, 0, 0⟩, rotationSpeed := 1/100
    orbitRadius := some 4, orbitSpeed := some (1/20), parent := some "pluto", emissive := false }

/-- The shipped registry extended with a body whose parent id is dangling. -/
def badRegistry : List Body := planetaryDataL ++ [phantomB]

/-! Helper lemmas about the kinematics. -/

theorem framePosition_root (reg : List Body) (b : Body) (t : ℝ) (prev : Vec3)
    (r s : ℚ) (hr : b.orbitRadius = some r) (hr0 : r ≠ 0)
    (hp : truthyStr b.parent = false) (hs : b.orbitSpeed = some s) :
    framePosition reg b t prev =
      some ⟨Real.cos (t * (s : ℝ)) * (r : ℝ), prev.y, Real.sin (t * (s : ℝ)) * (r : ℝ)⟩ := by
  unfold framePosition
  rw [hr, hs, hp]
  simp [truthyOpt, bne_iff_ne, hr0]

theorem framePosition_child (reg : List Body) (b : Body) (t : ℝ) (prev : Vec3)
    (e : Body) (es er s r : ℚ) (hp : truthyStr b.parent = true)
    (he : findEarth reg = some e) (hes : e.orbitSpeed = some es)
    (her : e.orbitRadius = some er) (hs : b.orbitSpeed = some s)
    (hr : b.orbitRadius = some r) :
    framePosition reg b t prev =
      some ⟨Real.cos (t * (es : ℝ)) * (er : ℝ) + Real.cos (t * (s : ℝ)) * (r : ℝ), prev.y,
            Real.sin (t * (es : ℝ)) * (er : ℝ) + Real.sin (t * (s : ℝ)) * (r : ℝ)⟩ := by
  unfold framePosition
  simp [hp, he, hes, her, hs, hr]

theorem framePosition_stationaryBody (reg : List Body) (b : Body) (t : ℝ) (prev : Vec3)
    (ho : truthyOpt b.orbitRadius = false) (hp : truthyStr b.parent = false) :
    framePosition reg b t prev = some prev := by
  unfold framePosition
  rw [ho, hp]
  simp

/-- Branch classification of the frame update at fixed registry, body and
time: either every previous position is sent to a fixed x and z with its own
y kept, or the update always yields no position (NaN or missing earth entry),
or it is the identity (stationary body). -/
theorem framePosition_shape (reg : List Body) (b : Body) (t : ℝ) :
    (∃ X Z : ℝ, ∀ q : Vec3, framePosition reg b t q = some ⟨X, q.y, Z⟩) ∨
    (∀ q : Vec3, framePosition reg b t q = none) ∨
    (∀ q : Vec3, framePosition reg b t q = some q) := by
  cases hcond : (truthyOpt b.orbitRadius && !truthyStr b.parent) with
  | true =>
    have hparts := hcond
    simp only [Bool.and_eq_true, Bool.not_eq_true'] at hparts
    obtain ⟨ho, hp⟩ := hparts
    rcases hr : b.orbitRadius with _ | r
    · rw [hr] at ho; simp [truthyOpt] at ho
    · have hr0 : r ≠ 0 := by
        rw [hr] at ho; simpa [truthyOpt, bne_iff_ne] using ho
      rcases hs : b.orbitSpeed with _ | s
      · right; left
        intro q
        unfold framePosition
        rw [hr, hs, hp]
        simp [truthyOpt, bne_iff_ne, hr0]
      · left
        exact ⟨_, _, fun q => framePosition_root reg b t q r s hr hr0 hp hs⟩
  | false =>
    cases hp : truthyStr b.parent with
    | false =>
      right; right
      intro q
      have ho : truthyOpt b.orbitRadius = false := by
        rw [hp] at hcond; simpa using hcond
      exact framePosition_stationaryBody reg b t q ho hp
    | true =>
      rcases he : findEarth reg with _ | e
      · right; left
        intro q
        unfold framePosition
        simp [hp, he]
      · rcases hes : e.orbitSpeed with _ | es <;>
        rcases her : e.orbitRadius with _ | er <;>
        rcases hs : b.orbitSpeed with _ | s <;>
        rcases hr : b.orbitRadius with _ | r <;>
        first
          | exact Or.inl ⟨_, _, fun q =>
              framePosition_child reg b t q e es er s r hp he hes her hs hr⟩
          | (right; left
             intro q
             unfold framePosition
             simp [hp, he, hes, her, hs, hr])

/-- The frame update never touches the y coordinate of a mesh. -/
theorem planetFrame_y (reg : List Body) (b : Body) (t : ℝ) (m : Mesh) :
    (planetFrame reg b t m).position.y = m.position.y := by
  unfold planetFrame
  rcases framePosition_shape reg b t with ⟨X, Z, h⟩ | h | h <;> simp [h]

/-- At a fixed simulation time, running the frame update twice leaves the
mesh position where one run put it. -/
theorem planetFrame_pos_idem (reg : List Body) (b : Body) (t : ℝ) (m : Mesh) :
    (planetFrame reg b t (planetFrame reg b t m)).position =
      (planetFrame reg b t m).position := by
  unfold planetFrame
  rcases framePosition_shape reg b t with ⟨X, Z, h⟩ | h | h <;> simp [h]

/-- The spin accumulator grows by exactly `rotationSpeed` per frame. -/
theorem planetFrame_rotY (reg : List Body) (b : Body) (t : ℝ) (m : Mesh) :
    (planetFrame reg b t m).rotY = m.rotY + (b.rotationSpeed : ℝ) := rfl
/-- The registry lookup for the hardcoded "earth" key on the shipped data. -/
theorem findEarth_planetaryDataL : findEarth planetaryDataL = some earthB := rfl

/-- A point on a circle of nonnegative radius about the origin of the
horizontal plane is at that radius from the origin. -/
theorem distOrigin_circle (c s R : ℝ) (hcs : c ^ 2 + s ^ 2 = 1) (hR : 0 ≤ R) :
    Vec3.distOrigin ⟨c * R, 0, s * R⟩ = R := by
  unfold Vec3.distOrigin
  have h : (c * R) ^ 2 + (0 : ℝ) ^ 2 + (s * R) ^ 2 = R ^ 2 := by
    have : (c * R) ^ 2 + (0 : ℝ) ^ 2 + (s * R) ^ 2 = (c ^ 2 + s ^ 2) * R ^ 2 := by ring
    rw [this, hcs, one_mul]
  rw [h]
  exact Real.sqrt_sq hR

/-- Advancing the clock with a nonnegative speed never decreases it. -/
theorem advanceTime_le (t s : ℝ) (hs : 0 ≤ s) : t ≤ advanceTime t s := by
  unfold advanceTime
  nlinarith

/-- Advancing the clock over any run of frames with nonnegative speeds never
decreases it. -/
theorem foldl_advanceTime_le (speeds : List ℝ) (t : ℝ) (h : ∀ s ∈ speeds, 0 ≤ s) :
    t ≤ speeds.foldl advanceTime t := by
  induction speeds generalizing t with
  | nil => exact le_refl t
  | cons s rest ih =>
    have h1 : t ≤ advanceTime t s := advanceTime_le t s (h s (by simp))
    have h2 : advanceTime t s ≤ rest.foldl advanceTime (advanceTime t s) :=
      ih (advanceTime t s) (fun x hx => h x (by simp [hx]))
    calc t ≤ advanceTime t s := h1
      _ ≤ rest.foldl advanceTime (advanceTime t s) := h2
      _ = (s :: rest).foldl advanceTime t := by simp [List.foldl_cons]

/-- With the speed multiplier at zero the clock advance is the identity. -/
theorem advanceTime_zero (t : ℝ) : advanceTime t 0 = t := by
  unfold advanceTime
  ring

/-- Sample point k of an emitted guide, for k in range. -/
theorem orbitPathPoints_getD (r : ℚ) (k : ℕ) (hk : k < 65) :
    (orbitPathPoints r).getD k default = orbitPoint r k := by
  unfold orbitPathPoints
  rw [List.getD_eq_getElem?_getD]
  simp [List.getElem?_map, List.getElem?_range, hk]

/-- Sample point 0 of a guide sits at angle 0. -/
theorem orbitPoint_zero (r : ℚ) : orbitPoint r 0 = ⟨(r : ℝ), 0, 0⟩ := by
  unfold orbitPoint
  have h : (((0 : ℕ) : ℝ) / 64) * Real.pi * 2 = 0 := by norm_num
  rw [h, Real.cos_zero, Real.sin_zero]
  norm_num

/-- Sample point 64 of a guide closes the polyline back at angle 0. -/
theorem orbitPoint_last (r : ℚ) : orbitPoint r 64 = ⟨(r : ℝ), 0, 0⟩ := by
  unfold orbitPoint
  have h : (((64 : ℕ) : ℝ) / 64) * Real.pi * 2 = 2 * Real.pi := by
    push_cast
    ring
  rw [h, Real.cos_two_pi, Real.sin_two_pi]
  norm_num

/-- Sample point 32 of a guide sits at angle PI, diametrically opposite
point 0. -/
theorem orbitPoint_half (r : ℚ) : orbitPoint r 32 = ⟨-(r : ℝ), 0, 0⟩ := by
  unfold orbitPoint
  have h : (((32 : ℕ) : ℝ) / 64) * Real.pi * 2 = Real.pi := by
    push_cast
    ring
  rw [h, Real.cos_pi, Real.sin_pi]
  norm_num

/-- Every emitted guide polyline is centered at the scene origin: the
midpoint of its two diametrically opposite sample points is the origin. -/
theorem guideCenter_orbitPathPoints (r : ℚ) :
    guideCenter (orbitPathPoints r) = ⟨0, 0, 0⟩ := by
  unfold guideCenter
  rw [orbitPathPoints_getD r 0 (by norm_num), orbitPathPoints_getD r 32 (by norm_num),
      orbitPoint_zero, orbitPoint_half]
  unfold vecMidpoint
  norm_num

/-- With orbit guides switched off the composer computes no guide radius. -/
theorem sceneOrbitGuideRadii_false (reg : List Body) :
    sceneOrbitGuideRadii reg false = [] := by
  unfold sceneOrbitGuideRadii
  simp only [Bool.and_false, Bool.false_eq_true, if_false, List.append_nil,
    List.filterMap_eq_nil_iff]
  intro a _
  cases h : a.orbitRadius <;> simp [h]
/-! Claim theorems. -/

/-- Claim C5: for every body with (truthy) `orbitRadius` and no `parentId`,
at every simulation time the resolved position equals
(cos(simulationTime * orbitSpeed) * orbitRadius, basePosition.y,
sin(simulationTime * orbitSpeed) * orbitRadius): a planar circular orbit in
the horizontal plane centered at the global origin. -/
theorem root_orbit_position_formula (reg : List Body) (b : Body) (t : ℝ) (r s : ℚ)
    (hr : b.orbitRadius = some r) (hr0 : r ≠ 0) (hp : truthyStr b.parent = false)
    (hs : b.orbitSpeed = some s) :
    resolvedPositionAt reg b t =
      some ⟨Real.cos (t * (s : ℝ)) * (r : ℝ), (b.position.y : ℝ),
            Real.sin (t * (s : ℝ)) * (r : ℝ)⟩ :=
  framePosition_root reg b t b.position.toVec3 r s hr hr0 hp hs

/-- Witness for C5: earth at simulation time 0 resolves to (30, 0, 0). -/
theorem root_orbit_position_formula_witness :
    resolvedPositionAt planetaryDataL earthB 0 = some ⟨30, 0, 0⟩ := by
  rw [root_orbit_position_formula planetaryDataL earthB 0 30 (1/100) rfl (by norm_num) rfl rfl]
  show some (⟨Real.cos (0 * ((1/100 : ℚ) : ℝ)) * ((30 : ℚ) : ℝ), ((0 : ℚ) : ℝ),
    Real.sin (0 * ((1/100 : ℚ) : ℝ)) * ((30 : ℚ) : ℝ)⟩ : Vec3) = some ⟨30, 0, 0⟩
  norm_num

/-- A root-orbit body whose base placement lies in the horizontal plane stays
at distance `orbitRadius` from the origin at every simulation time. -/
theorem resolvedPosition_distOrigin (reg : List Body) (b : Body) (t : ℝ) (r s : ℚ)
    (hr : b.orbitRadius = some r) (hr0 : r ≠ 0) (hp : truthyStr b.parent = false)
    (hs : b.orbitSpeed = some s) (hy : b.position.y = 0) (hR : 0 ≤ r) :
    ∃ p : Vec3, resolvedPositionAt reg b t = some p ∧ p.distOrigin = (r : ℝ) := by
  refine ⟨_, framePosition_root reg b t b.position.toVec3 r s hr hr0 hp hs, ?_⟩
  have hy2 : b.position.toVec3.y = 0 := by simp [QVec3.toVec3, hy]
  rw [hy2]
  exact distOrigin_circle _ _ _ (Real.cos_sq_add_sin_sq _) (by exact_mod_cast hR)

/-- Claim C6: every body of the shipped registry that has `orbitRadius` and
no `parentId` keeps distance exactly `orbitRadius` from the global origin at
every simulation time. -/
theorem root_orbit_distance_invariant (b : Body) (hb : b ∈ planetaryDataL) (r : ℚ)
    (hr : b.orbitRadius = some r) (hp : b.parent = none) (t : ℝ) :
    ∃ p : Vec3, resolvedPositionAt planetaryDataL b t = some p ∧
      p.distOrigin = (r : ℝ) := by
  fin_cases hb
  · simp [sunB] at hr
  · have h15 : (15 : ℚ) = r := by simpa [mercuryB] using hr
    subst h15
    exact resolvedPosition_distOrigin planetaryDataL mercuryB t 15 (1/50) rfl
      (by norm_num) rfl rfl rfl (by norm_num)
  · have h22 : (22 : ℚ) = r := by simpa [venusB] using hr
    subst h22
    exact resolvedPosition_distOrigin planetaryDataL venusB t 22 (3/200) rfl
      (by norm_num) rfl rfl rfl (by norm_num)
  · have h30 : (30 : ℚ) = r := by simpa [earthB] using hr
    subst h30
    exact resolvedPosition_distOrigin planetaryDataL earthB t 30 (1/100) rfl
      (by norm_num) rfl rfl rfl (by norm_num)
  · simp [moonB] at hp

/-- Witness for C6: earth at simulation time 2 sits at distance 30 from the
origin. -/
theorem root_orbit_distance_invariant_witness :
    ∃ p : Vec3, resolvedPositionAt planetaryDataL earthB 2 = some p ∧
      p.distOrigin = ((30 : ℚ) : ℝ) :=
  root_orbit_distance_invariant earthB (by simp [planetaryDataL]) 30 rfl rfl 2
/-- Claim C7: in the shipped registry (sun stationary, earth with orbit
radius 30 and speed 0.01, moon with orbit radius 4 and speed 0.05 around its
parent), earth resolves to (30, y, 0) and moon to (34, y, 0) at simulation
time 0, and earth resolves to (-30, y, 0) at simulation time PI / 0.01; here
y = 0, the base height of every registry body. -/
theorem concrete_scenario_positions :
    resolvedPositionAt planetaryDataL earthB 0 = some ⟨30, 0, 0⟩ ∧
    resolvedPositionAt planetaryDataL moonB 0 = some ⟨34, 0, 0⟩ ∧
    resolvedPositionAt planetaryDataL earthB (Real.pi / 0.01) = some ⟨-30, 0, 0⟩ := by
  refine ⟨?_, ?_, ?_⟩
  · rw [show resolvedPositionAt planetaryDataL earthB 0
        = framePosition planetaryDataL earthB 0 earthB.position.toVec3 from rfl,
      framePosition_root planetaryDataL earthB 0 earthB.position.toVec3 30 (1/100) rfl
        (by norm_num) rfl rfl]
    show some (⟨Real.cos (0 * ((1/100 : ℚ) : ℝ)) * ((30 : ℚ) : ℝ), ((0 : ℚ) : ℝ),
      Real.sin (0 * ((1/100 : ℚ) : ℝ)) * ((30 : ℚ) : ℝ)⟩ : Vec3) = some ⟨30, 0, 0⟩
    norm_num
  · rw [show resolvedPositionAt planetaryDataL moonB 0
        = framePosition planetaryDataL moonB 0 moonB.position.toVec3 from rfl,
      framePosition_child planetaryDataL moonB 0 moonB.position.toVec3 earthB
        (1/100) 30 (1/20) 4 rfl findEarth_planetaryDataL rfl rfl rfl rfl]
    show some (⟨Real.cos (0 * ((1/100 : ℚ) : ℝ)) * ((30 : ℚ) : ℝ)
        + Real.cos (0 * ((1/20 : ℚ) : ℝ)) * ((4 : ℚ) : ℝ), ((0 : ℚ) : ℝ),
      Real.sin (0 * ((1/100 : ℚ) : ℝ)) * ((30 : ℚ) : ℝ)
        + Real.sin (0 * ((1/20 : ℚ) : ℝ)) * ((4 : ℚ) : ℝ)⟩ : Vec3) = some ⟨34, 0, 0⟩
    norm_num
  · rw [show resolvedPositionAt planetaryDataL earthB (Real.pi / 0.01)
        = framePosition planetaryDataL earthB (Real.pi / 0.01) earthB.position.toVec3 from rfl,
      framePosition_root planetaryDataL earthB (Real.pi / 0.01) earthB.position.toVec3
        30 (1/100) rfl (by norm_num) rfl rfl]
    have hangle : (Real.pi / 0.01) * ((1/100 : ℚ) : ℝ) = Real.pi := by
      rw [show ((1/100 : ℚ) : ℝ) = 0.01 by norm_num]
      exact div_mul_cancel₀ Real.pi (by norm_num)
    show some (⟨Real.cos (Real.pi / 0.01 * ((1/100 : ℚ) : ℝ)) * ((30 : ℚ) : ℝ), ((0 : ℚ) : ℝ),
      Real.sin (Real.pi / 0.01 * ((1/100 : ℚ) : ℝ)) * ((30 : ℚ) : ℝ)⟩ : Vec3) = some ⟨-30, 0, 0⟩
    rw [hangle, Real.cos_pi, Real.sin_pi]
    norm_num

/-- Claim C8: the simulation clock starts at 0, each rendered frame advances
it exactly once by `timeSpeed * 0.01`, and over any run of frames whose
speeds are all nonnegative it never decreases. -/
theorem simulation_clock_properties :
    initialTime = 0 ∧
    (∀ (reg : List Body) (st : Settings) (b : Body) (x : ℝ × Mesh),
        (bodyFrame reg st b x).1 = x.1 + st.timeSpeed * 0.01) ∧
    (∀ (t : ℝ) (speeds : List ℝ), (∀ s ∈ speeds, 0 ≤ s) →
        t ≤ speeds.foldl advanceTime t) :=
  ⟨rfl, fun _ _ _ _ => rfl, fun t speeds h => foldl_advanceTime_le speeds t h⟩

/-- Witness for C8: the clock never decreases over the concrete speed run
1, 1/2, 0. -/
theorem simulation_clock_properties_witness :
    initialTime ≤ [(1 : ℝ), 1/2, 0].foldl advanceTime initialTime := by
  refine simulation_clock_properties.2.2 initialTime [(1 : ℝ), 1/2, 0] ?_
  intro s hs
  fin_cases hs <;> norm_num

/-- Claim C9: after `updateSetting("showOrbits", false)`, a composition pass
emits zero orbit guide instances, for any registry and any prior settings. -/
theorem hide_orbits_emits_no_guides (reg : List Body) (s : Settings) :
    sceneOrbitGuides reg
      ((updateSetting s "showOrbits" (SettingValue.flag false)).showOrbits) = [] := by
  rw [show (updateSetting s "showOrbits" (SettingValue.flag false)).showOrbits = false from rfl]
  unfold sceneOrbitGuides
  rw [sceneOrbitGuideRadii_false]
  rfl

/-- Claim C10: a frame update writes only the x and z coordinates and the
spin angle of a mesh; the y coordinate is never modified, so across a whole
session starting from the base placement it remains `basePosition.y`. -/
theorem frame_update_preserves_y (reg : List Body) (settings : Settings) (b : Body)
    (t : ℝ) (m : Mesh) :
    (planetFrame reg b t m).position.y = m.position.y ∧
    ∀ n : ℕ, ((bodyFrame reg settings b)^[n] (t, initialMesh b)).2.position.y
      = (b.position.y : ℝ) := by
  refine ⟨planetFrame_y reg b t m, ?_⟩
  intro n
  induction n with
  | zero => rfl
  | succ k ih =>
    rw [Function.iterate_succ_apply']
    exact (planetFrame_y reg b _ _).trans ih
/-- Position of a frame update depends on the previous mesh only through its
position. -/
theorem planetFrame_pos_congr (reg : List Body) (b : Body) (t : ℝ) (m1 m2 : Mesh)
    (h : m1.position = m2.position) :
    (planetFrame reg b t m1).position = (planetFrame reg b t m2).position := by
  unfold planetFrame
  rw [h]

/-- Claim C4: once `timeSpeed` is 0, the clock holds its value across any
number of frames, every orbit position stays where the first subsequent
frame put it, and the spin angle still grows by `rotationSpeed` every
frame. -/
theorem freeze_timeSpeed_behavior (reg : List Body) (settings : Settings) (b : Body)
    (t : ℝ) (m : Mesh) (h : settings.timeSpeed = 0) :
    (∀ n : ℕ, ((bodyFrame reg settings b)^[n] (t, m)).1 = t) ∧
    (∀ n : ℕ, ((bodyFrame reg settings b)^[n + 1] (t, m)).2.position =
        (bodyFrame reg settings b (t, m)).2.position) ∧
    (∀ n : ℕ, ((bodyFrame reg settings b)^[n] (t, m)).2.rotY =
        m.rotY + (n : ℝ) * (b.rotationSpeed : ℝ)) := by
  have hfreeze : ∀ n : ℕ,
      (bodyFrame reg settings b)^[n] (t, m) = (t, (planetFrame reg b t)^[n] m) := by
    intro n
    induction n with
    | zero => rfl
    | succ k ih =>
      rw [Function.iterate_succ_apply', ih]
      show (advanceTime t settings.timeSpeed,
          planetFrame reg b (advanceTime t settings.timeSpeed)
            ((planetFrame reg b t)^[k] m)) =
        (t, (planetFrame reg b t)^[k + 1] m)
      rw [h, advanceTime_zero, Function.iterate_succ_apply']
  have hposn : ∀ n : ℕ,
      ((planetFrame reg b t)^[n + 1] m).position = (planetFrame reg b t m).position := by
    intro n
    induction n with
    | zero => rfl
    | succ k ih =>
      rw [Function.iterate_succ_apply']
      calc (planetFrame reg b t ((planetFrame reg b t)^[k + 1] m)).position
          = (planetFrame reg b t (planetFrame reg b t m)).position := by
            apply planetFrame_pos_congr
            exact ih
        _ = (planetFrame reg b t m).position := planetFrame_pos_idem reg b t m
  refine ⟨fun n => by rw [hfreeze n], ?_, ?_⟩
  · intro n
    rw [hfreeze (n + 1)]
    show ((planetFrame reg b t)^[n + 1] m).position =
      (planetFrame reg b (advanceTime t settings.timeSpeed) m).position
    rw [h, advanceTime_zero, hposn n]
  · intro n
    rw [hfreeze n]
    show ((planetFrame reg b t)^[n] m).rotY = m.rotY + (n : ℝ) * (b.rotationSpeed : ℝ)
    induction n with
    | zero => simp
    | succ k ih =>
      rw [Function.iterate_succ_apply', planetFrame_rotY, ih]
      push_cast
      ring

/-- Witness for C4: with the UI having set `timeSpeed` to 0, after 5 frames
the clock still reads 0, the position equals the position after frame 1, and
the spin angle of earth has grown by 5 steps. -/
theorem freeze_timeSpeed_behavior_witness :
    ((bodyFrame planetaryDataL (updateSetting simulationSettings "timeSpeed"
        (SettingValue.num 0)) earthB)^[5] (initialTime, initialMesh earthB)).1
      = initialTime ∧
    ((bodyFrame planetaryDataL (updateSetting simulationSettings "timeSpeed"
        (SettingValue.num 0)) earthB)^[3] (initialTime, initialMesh earthB)).2.position
      = (bodyFrame planetaryDataL (updateSetting simulationSettings "timeSpeed"
        (SettingValue.num 0)) earthB (initialTime, initialMesh earthB)).2.position ∧
    ((bodyFrame planetaryDataL (updateSetting simulationSettings "timeSpeed"
        (SettingValue.num 0)) earthB)^[5] (initialTime, initialMesh earthB)).2.rotY
      = (initialMesh earthB).rotY + ((5 : ℕ) : ℝ) * (earthB.rotationSpeed : ℝ) := by
  have h := freeze_timeSpeed_behavior planetaryDataL
    (updateSetting simulationSettings "timeSpeed" (SettingValue.num 0)) earthB
    initialTime (initialMesh earthB) rfl
  exact ⟨h.1 5, h.2.1 2, h.2.2 5⟩
/-- Counterexample to claim C1: in a registry holding earth, mars and a child
body "phobos" whose `parent` names "mars", the kinematics still resolves the
offset against the hardcoded "earth" entry.  At simulation time 0 the parent
mars sits at (50, 0, 0), so the claimed rule (parent position plus offset)
would put phobos at (54, 0, 0); the code instead puts it at (34, 0, 0),
which is the position of earth plus the offset. -/
theorem child_orbit_ignores_named_parent :
    resolvedPositionAt marsRegistry phobosB 0 = some ⟨34, 0, 0⟩ ∧
    resolvedPositionAt marsRegistry marsB 0 = some ⟨50, 0, 0⟩ ∧
    resolvedPositionAt marsRegistry phobosB 0 ≠ some ⟨54, 0, 0⟩ := by
  have hph : resolvedPositionAt marsRegistry phobosB 0 = some ⟨34, 0, 0⟩ := by
    rw [show resolvedPositionAt marsRegistry phobosB 0
        = framePosition marsRegistry phobosB 0 phobosB.position.toVec3 from rfl,
      framePosition_child marsRegistry phobosB 0 phobosB.position.toVec3 earthB
        (1/100) 30 (1/20) 4 rfl rfl rfl rfl rfl rfl]
    show some (⟨Real.cos (0 * ((1/100 : ℚ) : ℝ)) * ((30 : ℚ) : ℝ)
        + Real.cos (0 * ((1/20 : ℚ) : ℝ)) * ((4 : ℚ) : ℝ), ((0 : ℚ) : ℝ),
      Real.sin (0 * ((1/100 : ℚ) : ℝ)) * ((30 : ℚ) : ℝ)
        + Real.sin (0 * ((1/20 : ℚ) : ℝ)) * ((4 : ℚ) : ℝ)⟩ : Vec3) = some ⟨34, 0, 0⟩
    norm_num
  refine ⟨hph, ?_, ?_⟩
  · rw [show resolvedPositionAt marsRegistry marsB 0
        = framePosition marsRegistry marsB 0 marsB.position.toVec3 from rfl,
      framePosition_root marsRegistry marsB 0 marsB.position.toVec3 50 (1/50) rfl
        (by norm_num) rfl rfl]
    show some (⟨Real.cos (0 * ((1/50 : ℚ) : ℝ)) * ((50 : ℚ) : ℝ), ((0 : ℚ) : ℝ),
      Real.sin (0 * ((1/50 : ℚ) : ℝ)) * ((50 : ℚ) : ℝ)⟩ : Vec3) = some ⟨50, 0, 0⟩
    norm_num
  · rw [hph]
    intro hEq
    have hx := congrArg Vec3.x (Option.some.injEq _ _ ▸ hEq : (⟨34, 0, 0⟩ : Vec3) = ⟨54, 0, 0⟩)
    norm_num at hx

/-- Amended claim C1: for every body with a truthy `parent`, the kinematics
adds the offset (cos(t * orbitSpeed) * orbitRadius, 0, sin(t * orbitSpeed) *
orbitRadius) to the position of the registry entry stored under the
hardcoded key "earth" (recomputed by the root-orbit rule from the orbital
parameters of that entry), regardless of which body `parent` names; the y
coordinate stays at the previous mesh height.  On the shipped registry every
`parent` is "earth", so there the claimed rule and the code agree. -/
theorem child_orbit_uses_hardcoded_earth (reg : List Body) (b : Body) (t : ℝ)
    (prev : Vec3) (e : Body) (es er s r : ℚ) (hp : truthyStr b.parent = true)
    (he : findEarth reg = some e) (hes : e.orbitSpeed = some es)
    (her : e.orbitRadius = some er) (hs : b.orbitSpeed = some s)
    (hr : b.orbitRadius = some r) :
    framePosition reg b t prev =
      some ⟨Real.cos (t * (es : ℝ)) * (er : ℝ) + Real.cos (t * (s : ℝ)) * (r : ℝ), prev.y,
            Real.sin (t * (es : ℝ)) * (er : ℝ) + Real.sin (t * (s : ℝ)) * (r : ℝ)⟩ :=
  framePosition_child reg b t prev e es er s r hp he hes her hs hr

/-- Witness for amended C1: the moon at simulation time 0, from a mesh at its
base placement, lands at earth plus its own offset: (30 + 4, 0, 0). -/
theorem child_orbit_uses_hardcoded_earth_witness :
    framePosition planetaryDataL moonB 0 ⟨34, 0, 0⟩ = some ⟨34, 0, 0⟩ := by
  rw [child_orbit_uses_hardcoded_earth planetaryDataL moonB 0 ⟨34, 0, 0⟩ earthB
    (1/100) 30 (1/20) 4 rfl findEarth_planetaryDataL rfl rfl rfl rfl]
  show some (⟨Real.cos (0 * ((1/100 : ℚ) : ℝ)) * ((30 : ℚ) : ℝ)
      + Real.cos (0 * ((1/20 : ℚ) : ℝ)) * ((4 : ℚ) : ℝ), (0 : ℝ),
    Real.sin (0 * ((1/100 : ℚ) : ℝ)) * ((30 : ℚ) : ℝ)
      + Real.sin (0 * ((1/20 : ℚ) : ℝ)) * ((4 : ℚ) : ℝ)⟩ : Vec3) = some ⟨34, 0, 0⟩
  norm_num

/-- Claim C2 (the code falls short of it): no startup validation exists.  A
registry containing a body whose `parent` references the nonexistent key
"pluto" is composed as is: the composition emits an instance for every body
including the invalid one, and the invalid body is silently rendered on an
orbit centered on the hardcoded "earth" entry (here (34, 0, 0) at simulation
time 0, same as a moon of earth), instead of the registry being rejected. -/
theorem invalid_parent_registry_not_rejected :
    scenePlanetInstances badRegistry = badRegistry ∧
    phantomB ∈ scenePlanetInstances badRegistry ∧
    resolvedPositionAt badRegistry phantomB 0 = some ⟨34, 0, 0⟩ := by
  refine ⟨rfl, by simp [scenePlanetInstances, badRegistry], ?_⟩
  rw [show resolvedPositionAt badRegistry phantomB 0
      = framePosition badRegistry phantomB 0 phantomB.position.toVec3 from rfl,
    framePosition_child badRegistry phantomB 0 phantomB.position.toVec3 earthB
      (1/100) 30 (1/20) 4 rfl rfl rfl rfl rfl rfl]
  show some (⟨Real.cos (0 * ((1/100 : ℚ) : ℝ)) * ((30 : ℚ) : ℝ)
      + Real.cos (0 * ((1/20 : ℚ) : ℝ)) * ((4 : ℚ) : ℝ), ((0 : ℚ) : ℝ),
    Real.sin (0 * ((1/100 : ℚ) : ℝ)) * ((30 : ℚ) : ℝ)
      + Real.sin (0 * ((1/20 : ℚ) : ℝ)) * ((4 : ℚ) : ℝ)⟩ : Vec3) = some ⟨34, 0, 0⟩
  norm_num
/-- Counterexample to claim C3: with the shipped registry and orbits shown,
every emitted guide is a circle centered at the scene origin (the midpoint of
its diametrically opposite sample points 0 and 32 is (0, 0, 0) for all four
guides), while the parent of the one child body (the moon) resolves to
(30, 0, 0) at simulation time 0; so no emitted guide is centered on the
parent of a child body. -/
theorem child_guide_not_parent_centered :
    (sceneOrbitGuides planetaryDataL true).map guideCenter =
      [⟨0, 0, 0⟩, ⟨0, 0, 0⟩, ⟨0, 0, 0⟩, ⟨0, 0, 0⟩] ∧
    resolvedPositionAt planetaryDataL earthB 0 = some ⟨30, 0, 0⟩ ∧
    (⟨30, 0, 0⟩ : Vec3) ≠ (⟨0, 0, 0⟩ : Vec3) := by
  refine ⟨?_, ?_, ?_⟩
  · unfold sceneOrbitGuides
    rw [show sceneOrbitGuideRadii planetaryDataL true = [15, 22, 30, 4] from rfl]
    simp [guideCenter_orbitPathPoints]
  · rw [show resolvedPositionAt planetaryDataL earthB 0
        = framePosition planetaryDataL earthB 0 earthB.position.toVec3 from rfl,
      framePosition_root planetaryDataL earthB 0 earthB.position.toVec3 30 (1/100) rfl
        (by norm_num) rfl rfl]
    show some (⟨Real.cos (0 * ((1/100 : ℚ) : ℝ)) * ((30 : ℚ) : ℝ), ((0 : ℚ) : ℝ),
      Real.sin (0 * ((1/100 : ℚ) : ℝ)) * ((30 : ℚ) : ℝ)⟩ : Vec3) = some ⟨30, 0, 0⟩
    norm_num
  · intro hEq
    have hx := congrArg Vec3.x hEq
    norm_num at hx

/-- Amended claim C3: when `showOrbits` is true the composer emits, for every
body with truthy `orbitRadius` and falsy `parent`, a guide of that radius,
plus exactly one unconditional extra guide whose radius is the `orbitRadius`
of the hardcoded registry entry "moon" (on the shipped registry the radii
are 15, 22, 30 and then 4 for the moon guide); every emitted guide is a
65-point (64-segment) closed polyline, flat in the horizontal plane, whose
points lie at its radius from the global origin, i.e. it is centered at the
origin and never on a moving parent. -/
theorem orbit_guides_structure :
    sceneOrbitGuideRadii planetaryDataL true = [15, 22, 30, 4] ∧
    (∀ (reg : List Body) (b : Body) (r : ℚ), b ∈ reg → b.orbitRadius = some r →
        r ≠ 0 → truthyStr b.parent = false → r ∈ sceneOrbitGuideRadii reg true) ∧
    (∀ r : ℚ,
        (orbitPathPoints r).length = 65 ∧
        (orbitPathPoints r).getD 0 default = (orbitPathPoints r).getD 64 default ∧
        guideCenter (orbitPathPoints r) = ⟨0, 0, 0⟩ ∧
        ∀ p ∈ orbitPathPoints r, p.y = 0 ∧ p.x ^ 2 + p.z ^ 2 = ((r : ℝ)) ^ 2) := by
  refine ⟨rfl, ?_, ?_⟩
  · intro reg b r hb hr hr0 hp
    apply List.mem_append_left
    rw [List.mem_filterMap]
    refine ⟨b, hb, ?_⟩
    rw [hr]
    simp [bne_iff_ne, hr0, hp]
  · intro r
    refine ⟨by simp [orbitPathPoints], ?_, guideCenter_orbitPathPoints r, ?_⟩
    · rw [orbitPathPoints_getD r 0 (by norm_num), orbitPathPoints_getD r 64 (by norm_num),
        orbitPoint_zero, orbitPoint_last]
    · intro p hp
      rw [orbitPathPoints, List.mem_map] at hp
      obtain ⟨i, _, rfl⟩ := hp
      refine ⟨rfl, ?_⟩
      show (Real.cos (((i : ℝ) / 64) * Real.pi * 2) * (r : ℝ)) ^ 2
          + (Real.sin (((i : ℝ) / 64) * Real.pi * 2) * (r : ℝ)) ^ 2 = ((r : ℝ)) ^ 2
      have hcs := Real.cos_sq_add_sin_sq (((i : ℝ) / 64) * Real.pi * 2)
      calc (Real.cos (((i : ℝ) / 64) * Real.pi * 2) * (r : ℝ)) ^ 2
            + (Real.sin (((i : ℝ) / 64) * Real.pi * 2) * (r : ℝ)) ^ 2
          = (Real.cos (((i : ℝ) / 64) * Real.pi * 2) ^ 2
            + Real.sin (((i : ℝ) / 64) * Real.pi * 2) ^ 2) * ((r : ℝ)) ^ 2 := by ring
        _ = ((r : ℝ)) ^ 2 := by rw [hcs, one_mul]

/-- Witness for amended C3: the radius of mercury appears among the guide
radii emitted for the shipped registry. -/
theorem orbit_guides_structure_witness :
    (15 : ℚ) ∈ sceneOrbitGuideRadii planetaryDataL true :=
  orbit_guides_structure.2.1 planetaryDataL mercuryB 15 (by simp [planetaryDataL])
    rfl (by norm_num) rfl
